import Mathlib

/-!
# HudMap core — shallow embedding and verification

A shallow embedding of the core subsystems of the HudMap navigation app:

* `Geo` — the pure geodesic math of `src/utils/geo.ts`
  (`distanceMeters`, `bearing`, `projectToLocalMeters`,
  `unprojectFromLocalMeters`, `rotatePoint`, `pointAtDistanceAndBearing`).
  JavaScript numbers are modelled as real numbers; `Math.sin`/`cos`/`atan2`/
  `sqrt`/`asin` become their Mathlib counterparts on `ℝ`.
* `Routing` — the route resolver of `src/services/routing.ts`
  (`buildRoute`, `buildRouteWithOsrm`, `createStraightLineRoute`, the
  single-slot destination-keyed route cache and the OSRM availability flags).
  The network is modelled as an explicit outcome parameter; timestamps
  (`Date.now()`) are integers in milliseconds.
* `Roads` — the Overpass road fetcher (`fetchNearbyRoads` with its
  proximity + age cache).
* `Heading` — the heading-fusion state machine of `src/services/location.ts`
  (`updateHeading`, the debounce timer, `stopLocationUpdates`,
  `getCurrentLocation`), with the mutable module state made explicit and
  timer firing modelled as a separate transition.
* `Extract` — the URL destination extractor (`parseCoordinates`,
  `geocodeAddress`, `extractDestinationFromUrl`).  This subsystem only does
  exact decimal parsing and comparisons, so its numbers are modelled as
  rationals to keep everything computable; the `URL` object produced by the
  JavaScript runtime is modelled as its consumed fields (hostname, pathname,
  query parameters).
-/

namespace Geo

/-- WGS84 coordinate, `LatLng` of `src/models/types.ts`. -/
structure LatLng where
  lat : ℝ
  lng : ℝ

@[ext] theorem LatLng.ext_iff' {a b : LatLng} (h1 : a.lat = b.lat) (h2 : a.lng = b.lng) :
    a = b := by
  cases a; cases b; simp_all

/-- Local planar point in meters, `Point2D` of `src/models/types.ts`. -/
structure Point2D where
  x : ℝ
  y : ℝ

/-- Earth's radius in meters (`EARTH_RADIUS_M` in `src/utils/geo.ts`). -/
def EARTH_RADIUS_M : ℝ := 6371000

/-- `toRadians` of `src/utils/geo.ts`. -/
noncomputable def toRadians (degrees : ℝ) : ℝ := degrees * Real.pi / 180

/-- `toDegrees` of `src/utils/geo.ts`. -/
noncomputable def toDegrees (radians : ℝ) : ℝ := radians * 180 / Real.pi

/-- JavaScript `Math.atan2 y x`: the angle of the point `(x, y)` in
`(-π, π]`, with the usual quadrant corrections. -/
noncomputable def atan2 (y x : ℝ) : ℝ :=
  if 0 < x then Real.arctan (y / x)
  else if x < 0 then
    (if 0 ≤ y then Real.arctan (y / x) + Real.pi else Real.arctan (y / x) - Real.pi)
  else
    (if 0 < y then Real.pi / 2 else if y < 0 then -(Real.pi / 2) else 0)

/-- `distanceMeters` of `src/utils/geo.ts` (haversine distance). -/
noncomputable def distanceMeters (a b : LatLng) : ℝ :=
  let dLat := toRadians (b.lat - a.lat)
  let dLng := toRadians (b.lng - a.lng)
  let lat1 := toRadians a.lat
  let lat2 := toRadians b.lat
  let a_val := Real.sin (dLat / 2) * Real.sin (dLat / 2) +
    Real.sin (dLng / 2) * Real.sin (dLng / 2) * Real.cos lat1 * Real.cos lat2
  let c := 2 * atan2 (Real.sqrt a_val) (Real.sqrt (1 - a_val))
  EARTH_RADIUS_M * c

/-- `bearing` of `src/utils/geo.ts`: initial bearing from `a` to `b` in
degrees, mapped to `[0, 360)` by `(deg + 360) % 360`.  JavaScript `%` on a
value in `(-360, 360)` after adding 360 agrees with the mathematical
`Int.emod`-style reduction performed by `· - 360 * ⌊· / 360⌋`; we embed the
final reduction as subtracting `360` when the shifted value reaches `360`. -/
noncomputable def bearing (a b : LatLng) : ℝ :=
  let lat1 := toRadians a.lat
  let lat2 := toRadians b.lat
  let dLng := toRadians (b.lng - a.lng)
  let y := Real.sin dLng * Real.cos lat2
  let x := Real.cos lat1 * Real.sin lat2 - Real.sin lat1 * Real.cos lat2 * Real.cos dLng
  let deg := toDegrees (atan2 y x)
  if deg + 360 < 360 then deg + 360 else deg

/-- `projectToLocalMeters` of `src/utils/geo.ts`: equirectangular projection
of `point` relative to `center` (x = east meters, y = north meters). -/
noncomputable def projectToLocalMeters (point center : LatLng) : Point2D :=
  let dLatDeg := point.lat - center.lat
  let dLngDeg := point.lng - center.lng
  let dLat := toRadians dLatDeg
  let dLng := toRadians dLngDeg
  let x := dLng * EARTH_RADIUS_M * Real.cos (toRadians center.lat)
  let y := dLat * EARTH_RADIUS_M
  ⟨x, y⟩

/-- `unprojectFromLocalMeters` of `src/utils/geo.ts`.  Note: the source adds
the quotients `y / R` and `x / (R·cos lat)` — which are angle differences in
*radians* — directly to the center's *degree* coordinates, without a
`toDegrees` conversion. -/
noncomputable def unprojectFromLocalMeters (point : Point2D) (center : LatLng) : LatLng :=
  let dLat := point.y / EARTH_RADIUS_M
  let dLng := point.x / (EARTH_RADIUS_M * Real.cos (toRadians center.lat))
  ⟨center.lat + dLat, center.lng + dLng⟩

/-- `rotatePoint` of `src/utils/geo.ts`. -/
noncomputable def rotatePoint (point : Point2D) (angleDegrees : ℝ) : Point2D :=
  let angle := toRadians angleDegrees
  let c := Real.cos angle
  let s := Real.sin angle
  ⟨point.x * c - point.y * s, point.x * s + point.y * c⟩

/-- `pointAtDistanceAndBearing` of `src/utils/geo.ts`: forward geodesic
solution on the sphere. -/
noncomputable def pointAtDistanceAndBearing (center : LatLng)
    (distanceM bearingDegrees : ℝ) : LatLng :=
  let bearingRad := toRadians bearingDegrees
  let lat1 := toRadians center.lat
  let lng1 := toRadians center.lng
  let angularDistance := distanceM / EARTH_RADIUS_M
  let lat2 := Real.arcsin (Real.sin lat1 * Real.cos angularDistance +
    Real.cos lat1 * Real.sin angularDistance * Real.cos bearingRad)
  let lng2 := lng1 + atan2
    (Real.sin bearingRad * Real.sin angularDistance * Real.cos lat1)
    (Real.cos angularDistance - Real.sin lat1 * Real.sin lat2)
  ⟨toDegrees lat2, toDegrees lng2⟩

end Geo

namespace Routing

/-- `Maneuver` of `src/models/types.ts`; the `type` field is the string
union `'turn' | 'straight' | 'arrive' | 'depart'`. -/
structure Maneuver where
  type : String
  instruction : String
  distance : ℝ
  bearing : Option ℝ

/-- `Route` of `src/models/types.ts`. -/
structure Route where
  points : List Geo.LatLng
  maneuvers : List Maneuver
  totalDistance : ℝ

/-- `ROUTE_CACHE_MAX_AGE_MS` (5 minutes). -/
def ROUTE_CACHE_MAX_AGE_MS : ℤ := 5 * 60 * 1000

/-- `OSRM_FAILURE_COOLDOWN_MS` (30 seconds). -/
def OSRM_FAILURE_COOLDOWN_MS : ℤ := 30000

/-- `RouteCacheEntry` of the routing service (fields `route`, `from`, `to`,
`timestamp`; `from`/`to` are renamed `fromPoint`/`toPoint` because `from` is
a Lean keyword). -/
structure RouteCacheEntry where
  route : Route
  fromPoint : Geo.LatLng
  toPoint : Geo.LatLng
  timestamp : ℤ

/-- The mutable module state of the routing service: `routeCache`,
`osrmAvailable`, `lastOsrmFailureTime`, `lastWarningTime`. -/
structure RoutingState where
  routeCache : Option RouteCacheEntry
  osrmAvailable : Bool
  lastOsrmFailureTime : ℤ
  lastWarningTime : ℤ

/-- One maneuver object of the OSRM response (`step.maneuver`): optional
`type`, `modifier` and `bearing_after` fields. -/
structure OsrmManeuver where
  type : Option String
  modifier : Option String
  bearing_after : Option ℝ

/-- One step of an OSRM leg: optional `maneuver` and `distance`. -/
structure OsrmStep where
  maneuver : Option OsrmManeuver
  distance : Option ℝ

/-- One leg of the OSRM route; `steps` is `none` when `leg.steps` is not an
array. -/
structure OsrmLeg where
  steps : Option (List OsrmStep)

/-- One route of the OSRM response: `geometry.coordinates` as `[lng, lat]`
pairs, optional `distance`, and `legs` (`none` when not an array). -/
structure OsrmRoute where
  coordinates : List (ℝ × ℝ)
  distance : Option ℝ
  legs : Option (List OsrmLeg)

/-- The observable behaviour of the OSRM HTTP call: network failure, abort
on the 8 s timeout, or an HTTP response with its `ok` flag and the parsed
`routes` array (`none` when the body has no `routes` field). -/
inductive OsrmOutcome where
  | netFail
  | timeout
  | http (ok : Bool) (routes : Option (List OsrmRoute))

/-- JavaScript `String.prototype.replace` with a *string* pattern replaces
only the first occurrence; this mirrors `modifier.replace('_', ' ')`. -/
def replaceFirst (s pat rep : String) : String :=
  match s.splitOn pat with
  | [] => s
  | [x] => x
  | x :: y :: rest => x ++ rep ++ String.intercalate pat (y :: rest)

/-- The per-step maneuver extraction inside `buildRouteWithOsrm` (steps
without a `maneuver` object are skipped; `type` defaults to `"turn"`,
`distance` to `0`; an empty-string `modifier` is falsy in the source's
`else if (modifier)` test). -/
def parseStep (step : OsrmStep) : Option Maneuver :=
  match step.maneuver with
  | none => none
  | some m =>
    let type := m.type.getD "turn"
    let distance := step.distance.getD 0
    let modifier := m.modifier.getD ""
    let instruction :=
      if type = "arrive" then "Arrive at destination"
      else if modifier ≠ "" then "Turn " ++ replaceFirst modifier "_" " "
      else if type = "depart" then "Depart"
      else "Continue"
    let mtype := if type = "arrive" then "arrive"
      else if type = "depart" then "depart" else "turn"
    some ⟨mtype, instruction, distance, m.bearing_after⟩

/-- The successful-response half of `buildRouteWithOsrm`: swap the provider's
`[lng, lat]` order, take `routes[0].distance ?? distanceMeters(from, to)`,
collect maneuvers over `legs[].steps[]`, and synthesize a single `arrive`
maneuver when none parsed. -/
noncomputable def parseOsrmRoute (fromPt toPt : Geo.LatLng) (r : OsrmRoute) : Route :=
  let points := r.coordinates.map (fun c => (⟨c.2, c.1⟩ : Geo.LatLng))
  let totalDistance := r.distance.getD (Geo.distanceMeters fromPt toPt)
  let maneuvers :=
    match r.legs with
    | none => []
    | some legs => legs.flatMap (fun leg =>
        match leg.steps with
        | none => []
        | some steps => steps.filterMap parseStep)
  let maneuvers :=
    if maneuvers.isEmpty then
      [⟨"arrive", "Arrive at destination", totalDistance, some (Geo.bearing fromPt toPt)⟩]
    else maneuvers
  ⟨points, maneuvers, totalDistance⟩

/-- `buildRouteWithOsrm`: throws (returns `.error`) on network failure, on
the timeout abort, on a non-`ok` HTTP status, and when `routes` is missing
or empty; otherwise parses `routes[0]`. -/
noncomputable def buildRouteWithOsrm (fromPt toPt : Geo.LatLng) (o : OsrmOutcome) :
    Except String Route :=
  match o with
  | .netFail => .error "Failed to fetch"
  | .timeout => .error "Routing API request timeout"
  | .http ok routes? =>
    if !ok then .error "Routing API error"
    else
      match routes? with
      | none => .error "No routes returned from routing API"
      | some [] => .error "No routes returned from routing API"
      | some (r :: _) => .ok (parseOsrmRoute fromPt toPt r)

/-- `createStraightLineRoute`: `from`, then one interpolated point every
`totalDistance / numSegments` meters along the straight-line bearing for
loop indices `1 ≤ i < numSegments` with
`numSegments = max(1, ⌊totalDistance / 100⌋)`, then `to`; a single `arrive`
maneuver at the full distance and straight-line bearing. -/
noncomputable def createStraightLineRoute (fromPt toPt : Geo.LatLng) : Route :=
  let totalDistance := Geo.distanceMeters fromPt toPt
  let routeBearing := Geo.bearing fromPt toPt
  let numSegments : ℤ := max 1 ⌊totalDistance / 100⌋
  let points : List Geo.LatLng :=
    fromPt :: (List.range (numSegments.toNat - 1)).map (fun i : ℕ =>
      Geo.pointAtDistanceAndBearing fromPt
        (((i : ℝ) + 1) * totalDistance / (numSegments : ℝ)) routeBearing) ++ [toPt]
  let maneuvers : List Maneuver :=
    [⟨"arrive", "Arrive at destination", totalDistance, some routeBearing⟩]
  ⟨points, maneuvers, totalDistance⟩

/-- The result of one `buildRoute` call: the resolved route, the module
state afterwards, and whether the OSRM request was attempted. -/
structure BuildRouteResult where
  route : Route
  state : RoutingState
  networkAttempted : Bool

/-- The cache test of `buildRoute`: a cached entry exists, its destination
matches `to` within `0.0001°` on both axes, and the entry is younger than
`ROUTE_CACHE_MAX_AGE_MS`. -/
noncomputable def cacheHit (st : RoutingState) (now : ℤ) (toPt : Geo.LatLng) : Bool :=
  match st.routeCache with
  | none => false
  | some e => decide ((|e.toPoint.lat - toPt.lat| < 0.0001 ∧
      |e.toPoint.lng - toPt.lng| < 0.0001) ∧ now - e.timestamp < ROUTE_CACHE_MAX_AGE_MS)

/-- `buildRoute`: cache check (destination tolerance + age; a mismatched
destination clears the cache immediately), then the OSRM attempt — always
performed, the cooldown only controls resetting `osrmAvailable` — and the
straight-line fallback on any raised error, with both outcomes cached. -/
noncomputable def buildRoute (st : RoutingState) (now : ℤ) (fromPt toPt : Geo.LatLng)
    (o : OsrmOutcome) : BuildRouteResult :=
  let afterCache : Option Route × RoutingState :=
    match st.routeCache with
    | none => (none, st)
    | some e =>
      let toMatch := |e.toPoint.lat - toPt.lat| < 0.0001 ∧ |e.toPoint.lng - toPt.lng| < 0.0001
      if toMatch ∧ now - e.timestamp < ROUTE_CACHE_MAX_AGE_MS then (some e.route, st)
      else if ¬ toMatch then (none, { st with routeCache := none })
      else (none, st)
  match afterCache with
  | (some r, st1) => ⟨r, st1, false⟩
  | (none, st1) =>
    let inCooldown := !st1.osrmAvailable &&
      decide (now - st1.lastOsrmFailureTime < OSRM_FAILURE_COOLDOWN_MS)
    let st2 := if inCooldown then st1 else { st1 with osrmAvailable := true }
    match buildRouteWithOsrm fromPt toPt o with
    | .ok route =>
      ⟨route,
        { st2 with osrmAvailable := true,
                   routeCache := some ⟨route, fromPt, toPt, now⟩ },
        true⟩
    | .error _ =>
      let st3 := { st2 with osrmAvailable := false, lastOsrmFailureTime := now }
      let st4 := if now - st3.lastWarningTime ≥ OSRM_FAILURE_COOLDOWN_MS then
          { st3 with lastWarningTime := now } else st3
      let fallback := createStraightLineRoute fromPt toPt
      ⟨fallback,
        { st4 with routeCache := some ⟨fallback, fromPt, toPt, now⟩ },
        true⟩

end Routing

namespace Roads

/-- `RoadSegment` of `src/models/types.ts`: a polyline and the optional OSM
`highway` class (field `type` in the source). -/
structure RoadSegment where
  points : List Geo.LatLng
  type : Option String

/-- `FETCH_INTERVAL_MS` (15 seconds). -/
def FETCH_INTERVAL_MS : ℤ := 15000

/-- `MIN_DISTANCE_M` (150 meters). -/
def MIN_DISTANCE_M : ℝ := 150

/-- The single-slot road cache (`CacheEntry` in the Overpass service). -/
structure CacheEntry where
  roads : List RoadSegment
  center : Geo.LatLng
  radiusM : ℝ
  timestamp : ℤ

/-- `distanceBetween` of the Overpass service: planar degree distance scaled
by a rough 111000 m/degree. -/
noncomputable def distanceBetween (a b : Geo.LatLng) : ℝ :=
  let dLat := b.lat - a.lat
  let dLng := b.lng - a.lng
  Real.sqrt (dLat * dLat + dLng * dLng) * 111000

/-- One `element` of the Overpass response: the optional `geometry` node
list (as `(lat, lon)` pairs) and the optional `tags.highway` value. -/
structure OverpassWay where
  geometry : Option (List (ℝ × ℝ))
  highway : Option String

/-- The observable behaviour of the Overpass HTTP call. -/
inductive OverpassOutcome where
  | netFail
  | timeout
  | http (ok : Bool) (elements : List OverpassWay)

/-- `fetchRoadsFromOverpass`: throws on network failure, abort and non-`ok`
status; otherwise keeps elements with a geometry of more than one node and
maps them to `RoadSegment`s. -/
def fetchRoadsFromOverpass (o : OverpassOutcome) : Except String (List RoadSegment) :=
  match o with
  | .netFail => .error "Failed to fetch"
  | .timeout => .error "Overpass API request timeout"
  | .http ok elements =>
    if !ok then .error "Overpass API error"
    else .ok (elements.filterMap (fun el =>
      match el.geometry with
      | some g =>
        if g.length > 1 then
          some ⟨g.map (fun n => (⟨n.1, n.2⟩ : Geo.LatLng)), el.highway⟩
        else none
      | none => none))

/-- The result of one `fetchNearbyRoads` call: the returned value (or the
propagated error), the cache slot afterwards, whether a fetch was performed,
and the radius used for it. -/
structure FetchResult where
  out : Except String (List RoadSegment)
  cache : Option CacheEntry
  fetched : Bool
  fetchRadius : Option ℝ

/-- `fetchNearbyRoads`: serve the cache when the center moved less than
`MIN_DISTANCE_M`, the requested radius fits the cached one and the entry is
younger than `FETCH_INTERVAL_MS`; otherwise fetch with
`max(radiusM, 400)`, replacing the slot on success and falling back to the
stale cache (or propagating the error) on failure. -/
noncomputable def fetchNearbyRoads (st : Option CacheEntry) (now : ℤ)
    (lat lng radiusM : ℝ) (o : OverpassOutcome) : FetchResult :=
  let center : Geo.LatLng := ⟨lat, lng⟩
  let doFetch : FetchResult :=
    let fetchRadius := max radiusM 400
    match fetchRoadsFromOverpass o with
    | .ok roads => ⟨.ok roads, some ⟨roads, center, fetchRadius, now⟩, true, some fetchRadius⟩
    | .error e =>
      match st with
      | some c => ⟨.ok c.roads, st, true, some fetchRadius⟩
      | none => ⟨.error e, st, true, some fetchRadius⟩
  match st with
  | some c =>
    if distanceBetween c.center center < MIN_DISTANCE_M ∧ radiusM ≤ c.radiusM ∧
        now - c.timestamp < FETCH_INTERVAL_MS then
      ⟨.ok c.roads, st, false, none⟩
    else doFetch
  | none => doFetch

end Roads

namespace Heading

/-- `LocationData` of `src/models/types.ts`. -/
structure LocationData where
  position : Geo.LatLng
  heading : ℝ
  accuracy : ℝ
  timestamp : ℤ

/-- The mutable module state of `src/services/location.ts` that the heading
fusion reads and writes.  The debounce timer holds no data besides being
armed, so it is a `Bool`; listeners are identified by registration order. -/
structure HState where
  watchId : Bool
  headingSubscription : Bool
  currentLocation : Option LocationData
  previousPosition : Option Geo.LatLng
  mockHeading : ℝ
  listeners : List ℕ
  lastGpsHeading : Option ℝ
  lastGpsHeadingTimestamp : Option ℤ
  headingDebounceTimer : Bool
  pendingHeading : Option ℝ
  headingDebounceMs : ℤ

/-- The GPS-freshness test of `updateHeading`: both `lastGpsHeading` and
`lastGpsHeadingTimestamp` are set and the timestamp is less than 3000 ms
old. -/
def gpsIsFresh (st : HState) (now : ℤ) : Bool :=
  st.lastGpsHeading.isSome &&
    (match st.lastGpsHeadingTimestamp with
     | some ts => decide (now - ts < 3000)
     | none => false)

/-- `updateHeading` (the compass event handler): ignore the event without a
current fix; ignore it while the GPS heading is fresh; otherwise store it as
the pending heading and (re)arm the debounce timer.  The second component is
the list of listener notifications the call makes synchronously — always
empty, since notification happens only when the timer fires. -/
def updateHeading (st : HState) (now : ℤ) (heading : ℝ) : HState × List LocationData :=
  match st.currentLocation with
  | none => (st, [])
  | some _ =>
    if gpsIsFresh st now then (st, [])
    else ({ st with pendingHeading := some heading, headingDebounceTimer := true }, [])

/-- The debounce-timer callback: when a pending heading and a current fix
exist, replace the fix's heading by the pending value (a fresh object),
notify every listener with it and clear the pending value; in every case
the timer is disarmed. -/
def fireHeadingDebounce (st : HState) : HState × List LocationData :=
  match st.pendingHeading, st.currentLocation with
  | some p, some loc =>
    let updated : LocationData := { loc with heading := p }
    ({ st with currentLocation := some updated, pendingHeading := none,
               headingDebounceTimer := false },
     st.listeners.map (fun _ => updated))
  | _, _ => ({ st with headingDebounceTimer := false }, [])

/-- `stopLocationUpdates`: clear the watch and the native heading
subscription, cancel a pending debounce timer, clear all listeners, and
reset `previousPosition`, `mockHeading` and `pendingHeading`.  The fields
`currentLocation`, `lastGpsHeading` and `lastGpsHeadingTimestamp` are not
touched. -/
def stopLocationUpdates (st : HState) : HState :=
  { st with watchId := false, headingSubscription := false,
            headingDebounceTimer := false, listeners := [],
            previousPosition := none, mockHeading := 0, pendingHeading := none }

/-- `getCurrentLocation`: the cached last fix, if any. -/
def getCurrentLocation (st : HState) : Option LocationData :=
  st.currentLocation

/-- The `watchPosition` success handler of `startLocationUpdates` (with
`USE_MOCK_HEADING = false`): adopt a valid non-negative GPS heading, else
derive the heading from movement when a previous position exists; in either
case record it as the fresh GPS heading only when the moved distance
exceeds 3 m; store the new fix and notify all listeners. -/
noncomputable def processFix (st : HState) (now : ℤ) (pos : Geo.LatLng)
    (gpsHeading : Option ℝ) (accuracy : ℝ) (fixTimestamp : ℤ) :
    HState × List LocationData :=
  let movedDistanceM :=
    match st.previousPosition with
    | some prev => Geo.distanceMeters prev pos
    | none => 0
  let heading0 := (st.currentLocation.map (·.heading)).getD 0
  let (heading, gps) :=
    match gpsHeading with
    | some h =>
      if 0 ≤ h then (h, if movedDistanceM > 3 then some (h, now) else none)
      else
        match st.previousPosition with
        | some prev =>
          let h' := Geo.bearing prev pos
          (h', if movedDistanceM > 3 then some (h', now) else none)
        | none => (heading0, none)
    | none =>
      match st.previousPosition with
      | some prev =>
        let h' := Geo.bearing prev pos
        (h', if movedDistanceM > 3 then some (h', now) else none)
      | none => (heading0, none)
  let location : LocationData := ⟨pos, heading, accuracy, fixTimestamp⟩
  let st' := { st with
    previousPosition := some pos,
    currentLocation := some location,
    lastGpsHeading :=
      match gps with
      | some (h, _) => some h
      | none => st.lastGpsHeading,
    lastGpsHeadingTimestamp :=
      match gps with
      | some (_, t) => some t
      | none => st.lastGpsHeadingTimestamp }
  (st', st.listeners.map (fun _ => location))

end Heading

namespace Extract

/-- The destination coordinate produced by the URL extractor.  This
subsystem performs only exact decimal parsing and range comparisons, so its
numbers are modelled as rationals, keeping every definition computable. -/
structure LatLng where
  lat : ℚ
  lng : ℚ
  deriving DecidableEq

/-- The fields of the JavaScript `URL` object that
`extractDestinationFromUrl` consumes, after short-link resolution (the
`resolveShortLink` network step and the runtime's URL parser are boundary
collaborators).  `params` lists the query parameters in order;
`searchParams.get` returns the first binding. -/
structure Url where
  hostname : String
  pathname : String
  params : List (String × String)

/-- `URLSearchParams.get`: the first value bound to `key`, if any.  (String
keys are compared by their character lists, which Lean's kernel can
evaluate.) -/
def Url.getParam (u : Url) (key : String) : Option String :=
  ((u.params.find? (fun p => p.1.toList == key.toList)).map Prod.snd)

/-- Whether `pat` occurs somewhere in `cs`
(JavaScript `String.prototype.includes`). -/
def listContains (pat : List Char) : List Char → Bool
  | [] => pat.isPrefixOf ([] : List Char)
  | c :: rest => pat.isPrefixOf (c :: rest) || listContains pat rest

/-- `String.prototype.includes`. -/
def strIncludes (s pat : String) : Bool :=
  listContains pat.toList s.toList

/-- JavaScript `String.prototype.split` with a single-character separator:
split at every occurrence, keeping empty pieces. -/
def splitChar (sep : Char) : List Char → List (List Char)
  | [] => [[]]
  | c :: rest =>
    if c = sep then [] :: splitChar sep rest
    else
      match splitChar sep rest with
      | [] => [[c]]
      | g :: gs => (c :: g) :: gs

/-- JavaScript `String.prototype.trim`: strip whitespace from both ends. -/
def charsTrim (cs : List Char) : List Char :=
  ((cs.dropWhile Char.isWhitespace).reverse.dropWhile Char.isWhitespace).reverse

/-- Digit run to the natural number it denotes. -/
def digitsToNat (cs : List Char) : ℕ :=
  cs.foldl (fun n c => n * 10 + (c.toNat - '0'.toNat)) 0

/-- JavaScript `parseFloat` on a character list, restricted to the decimal
shapes this service feeds it: an optional sign, an integer part, an
optional fraction part (at least one digit overall), with any trailing
garbage ignored.  `NaN` results are `none`.  Exponent forms (`1e3`) are not
modelled; every string the source passes through a coordinate regex match
is sign-digits-dot-digits. -/
def parseFloatChars (cs : List Char) : Option ℚ :=
  let (neg, cs1) :=
    match cs with
    | '-' :: rest => (true, rest)
    | '+' :: rest => (false, rest)
    | _ => (false, cs)
  let intPart := cs1.takeWhile Char.isDigit
  let rest1 := cs1.dropWhile Char.isDigit
  let fracPart :=
    match rest1 with
    | '.' :: r => r.takeWhile Char.isDigit
    | _ => []
  if intPart.isEmpty && fracPart.isEmpty then none
  else
    let v : ℚ := (digitsToNat intPart : ℚ) + (digitsToNat fracPart : ℚ) / 10 ^ fracPart.length
    some (if neg then -v else v)

/-- JavaScript `parseFloat` (see `parseFloatChars`). -/
def parseFloat (s : String) : Option ℚ :=
  parseFloatChars s.toList

/-- `parseCoordinates`: split on `','`, trim, parse both halves and accept
only finite values with latitude in `[-90, 90]` and longitude in
`[-180, 180]`. -/
def parseCoordinates (str : String) : Option LatLng :=
  let parts := (splitChar ',' str.toList).map charsTrim
  match parts with
  | p0 :: p1 :: _ =>
    match parseFloatChars p0, parseFloatChars p1 with
    | some lat, some lng =>
      if -90 ≤ lat ∧ lat ≤ 90 ∧ -180 ≤ lng ∧ lng ≤ 180 then some ⟨lat, lng⟩
      else none
    | _, _ => none
  | _ => none

/-- `geocodeAddress`: the Nominatim call is modelled as an oracle from the
address to the first result's string-encoded `lat`/`lon` (or `none` on any
network/HTTP failure or empty result list); the source applies `parseFloat`
to both strings with **no range check**.  (On unparseable strings the
source would produce `NaN` coordinates; that is modelled as `none`.) -/
def geocodeAddress (geocode : String → Option (String × String)) (address : String) :
    Option LatLng :=
  match geocode address with
  | some (latS, lonS) =>
    match parseFloat latS, parseFloat lonS with
    | some lat, some lon => some ⟨lat, lon⟩
    | _, _ => none
  | none => none

/-- Deterministic matcher for the regex fragment `-?\d+\.?\d*`: an optional
minus, a maximal digit run, an optional dot with a maximal digit run.
Returns the matched text and the remaining characters.  (For this fragment,
followed in the patterns below by `,` or nothing, maximal munch agrees with
the regex engine's backtracking search.) -/
def matchNumber (cs : List Char) : Option (List Char × List Char) :=
  let (sign, cs1) :=
    match cs with
    | '-' :: rest => (['-'], rest)
    | _ => ([], cs)
  let d1 := cs1.takeWhile Char.isDigit
  if d1.isEmpty then none
  else
    let r1 := cs1.dropWhile Char.isDigit
    match r1 with
    | '.' :: r2 =>
      some (sign ++ d1 ++ ['.'] ++ r2.takeWhile Char.isDigit, r2.dropWhile Char.isDigit)
    | _ => some (sign ++ d1, r1)

/-- `pathname.match(/@(-?\d+\.?\d*),(-?\d+\.?\d*)/)`: scan for the first
`@` at which both capture groups match; return the two group texts. -/
def matchAtPair : List Char → Option (String × String)
  | [] => none
  | '@' :: rest =>
    (match matchNumber rest with
     | some (g1, r1) =>
       (match r1 with
        | ',' :: r2 =>
          (match matchNumber r2 with
           | some (g2, _) => some (String.mk g1, String.mk g2)
           | none => matchAtPair rest)
        | _ => matchAtPair rest)
     | none => matchAtPair rest)
  | _ :: rest => matchAtPair rest

/-- Whether `pat` occurs at the head of `cs`. -/
def prefixMatches (pat : String) (cs : List Char) : Bool :=
  pat.toList.isPrefixOf cs

/-- `pathname.match(/\/place\/[^/]+\/@(-?\d+\.?\d*),(-?\d+\.?\d*)/)`: scan
for the first `/place/` occurrence followed by a non-empty slash-free
segment, `/@` and the two coordinate groups. -/
def matchPlacePair : List Char → Option (String × String)
  | [] => none
  | c :: rest =>
    if prefixMatches "/place/" (c :: rest) then
      let after := (c :: rest).drop 7
      let name := after.takeWhile (· ≠ '/')
      let tail := after.dropWhile (· ≠ '/')
      let here :=
        if name.isEmpty then none
        else
          match tail with
          | '/' :: '@' :: r2 =>
            (match matchNumber r2 with
             | some (g1, r3) =>
               (match r3 with
                | ',' :: r4 =>
                  (match matchNumber r4 with
                   | some (g2, _) => some (String.mk g1, String.mk g2)
                   | none => none)
                | _ => none)
             | none => none)
          | _ => none
      match here with
      | some p => some p
      | none => matchPlacePair rest
    else matchPlacePair rest

/-- `extractDestinationFromUrl`, from `new URL(resolvedUrl)` onward: try the
`q` parameter (coordinates, then geocoding), the `destination` and `query`
parameters, the Waze `q` parameter, the `@lat,lng` pathname segment, and
the `/place/<name>/@lat,lng` pathname segment, in the source's order.  The
two pathname branches return `parseFloat` of the matched groups with no
range validation (the matched groups always parse, so the `getD 0` defaults
are unreachable). -/
def extractDestinationFromUrl (u : Url) (geocode : String → Option (String × String)) :
    Option LatLng :=
  let qStep : Option LatLng :=
    match u.getParam "q" with
    | some q =>
      (match parseCoordinates q with
       | some c => some c
       | none => geocodeAddress geocode q)
    | none => none
  match qStep with
  | some c => some c
  | none =>
  match (u.getParam "destination").bind parseCoordinates with
  | some c => some c
  | none =>
  match (u.getParam "query").bind parseCoordinates with
  | some c => some c
  | none =>
  match (if strIncludes u.hostname "waze.com" then
           (u.getParam "q").bind parseCoordinates
         else none) with
  | some c => some c
  | none =>
  match (if strIncludes u.pathname "@" then matchAtPair u.pathname.toList else none) with
  | some (s1, s2) => some ⟨(parseFloat s1).getD 0, (parseFloat s2).getD 0⟩
  | none =>
  match matchPlacePair u.pathname.toList with
  | some (s1, s2) => some ⟨(parseFloat s1).getD 0, (parseFloat s2).getD 0⟩
  | none => none

/-- A geocoding oracle that always fails (network down / no results). -/
def noGeocode : String → Option (String × String) := fun _ => none

end Extract

namespace Geo

/-- The lat component of the projection round trip at `p = (1, 0)`,
`c = (0, 0)`: the code returns `π / 180`, not `1`. -/
theorem roundtrip_lat_at_one :
    (unprojectFromLocalMeters (projectToLocalMeters ⟨1, 0⟩ ⟨0, 0⟩) ⟨0, 0⟩).lat =
      Real.pi / 180 := by
  simp only [unprojectFromLocalMeters, projectToLocalMeters, toRadians]
  norm_num [EARTH_RADIUS_M]

end Geo

/-- C2: the claim states `unprojectFromLocalMeters (projectToLocalMeters p c) c = p`
exactly over real arithmetic for every `p`, `c`.  The code violates it:
`unprojectFromLocalMeters` omits the radians→degrees conversion, so at
`p = (lat 1, lng 0)`, `c = (lat 0, lng 0)` the round trip returns latitude
`π / 180 ≈ 0.01745` instead of `1` — an error of ≈ 0.98°, far beyond the
specified 1e-6° tolerance.  This theorem evaluates the code at that failing
input and shows the round trip differs from `p`. -/
theorem C2_roundtrip_fails_at_failing_input :
    (Geo.unprojectFromLocalMeters
        (Geo.projectToLocalMeters ⟨1, 0⟩ ⟨0, 0⟩) ⟨0, 0⟩).lat = Real.pi / 180 ∧
    (Geo.unprojectFromLocalMeters
        (Geo.projectToLocalMeters ⟨1, 0⟩ ⟨0, 0⟩) ⟨0, 0⟩) ≠ (⟨1, 0⟩ : Geo.LatLng) := by
  refine ⟨Geo.roundtrip_lat_at_one, fun h => ?_⟩
  have hlat : (Geo.unprojectFromLocalMeters
      (Geo.projectToLocalMeters ⟨1, 0⟩ ⟨0, 0⟩) ⟨0, 0⟩).lat = 1 := by rw [h]
  rw [Geo.roundtrip_lat_at_one] at hlat
  have hpi : Real.pi ≤ 4 := Real.pi_le_four
  nlinarith

/-- `Int.toNat` of `max 1 ⌊x⌋` is `max 1 ⌊x⌋₊`. -/
theorem toNat_max_one_floor (x : ℝ) : (max 1 ⌊x⌋).toNat = max 1 ⌊x⌋₊ := by
  have h := Int.floor_toNat x
  omega

/-- The real cast of the segment count, in `ℤ` and `ℕ` form. -/
theorem cast_max_one_floor (x : ℝ) : ((max 1 ⌊x⌋ : ℤ) : ℝ) = ((max 1 ⌊x⌋₊ : ℕ) : ℝ) := by
  rw [← toNat_max_one_floor x]
  exact_mod_cast (Int.toNat_of_nonneg (le_trans zero_le_one (le_max_left 1 ⌊x⌋))).symm

/-- `createStraightLineRoute` with the segment count expressed in `ℕ`. -/
theorem createStraightLineRoute_eq (f t : Geo.LatLng) :
    Routing.createStraightLineRoute f t =
      ⟨f :: (List.range (max 1 ⌊Geo.distanceMeters f t / 100⌋₊ - 1)).map (fun i : ℕ =>
          Geo.pointAtDistanceAndBearing f
            (((i : ℝ) + 1) * Geo.distanceMeters f t /
              ((max 1 ⌊Geo.distanceMeters f t / 100⌋₊ : ℕ) : ℝ)) (Geo.bearing f t)) ++ [t],
        [⟨"arrive", "Arrive at destination", Geo.distanceMeters f t,
          some (Geo.bearing f t)⟩],
        Geo.distanceMeters f t⟩ := by
  unfold Routing.createStraightLineRoute
  simp only [toNat_max_one_floor, cast_max_one_floor]

/-- C4: the synthetic straight-line route starts at `from`, ends at `to`,
has exactly `⌊totalDistance / 100⌋ - 1` interpolated points between them
(count read in `ℕ` with truncated subtraction, a point count being a
natural number), each placed by `pointAtDistanceAndBearing` at the evenly
spaced distance `i · total / numSegments` along the straight-line bearing,
and carries exactly one maneuver of kind `arrive` whose distance is
`distanceMeters from to` and whose bearing is `bearing from to`. -/
theorem C4_straight_line_route_shape (f t : Geo.LatLng) :
    (Routing.createStraightLineRoute f t).points.head? = some f ∧
    (Routing.createStraightLineRoute f t).points.getLast? = some t ∧
    (Routing.createStraightLineRoute f t).points.length =
      (⌊Geo.distanceMeters f t / 100⌋₊ - 1) + 2 ∧
    (Routing.createStraightLineRoute f t).points =
      f :: (List.range (max 1 ⌊Geo.distanceMeters f t / 100⌋₊ - 1)).map (fun i : ℕ =>
        Geo.pointAtDistanceAndBearing f
          (((i : ℝ) + 1) * Geo.distanceMeters f t /
            ((max 1 ⌊Geo.distanceMeters f t / 100⌋₊ : ℕ) : ℝ)) (Geo.bearing f t)) ++ [t] ∧
    (Routing.createStraightLineRoute f t).maneuvers =
      [⟨"arrive", "Arrive at destination", Geo.distanceMeters f t,
        some (Geo.bearing f t)⟩] ∧
    (Routing.createStraightLineRoute f t).totalDistance = Geo.distanceMeters f t := by
  rw [createStraightLineRoute_eq]
  dsimp only
  refine ⟨rfl, ?_, ?_, rfl, rfl, rfl⟩
  · exact List.getLast?_concat _
  · simp only [List.length_cons, List.length_append, List.length_map, List.length_range,
      List.length_singleton, List.length_nil]
    omega

/-- C1: whenever the OSRM call raises (network failure, timeout, non-2xx
response, missing or empty route list), `buildRoute` still resolves: on a
cache miss it returns exactly the straight-line synthetic route, and on a
cache hit the cached route — the error is never surfaced (in the model,
`buildRoute` is total by construction, mirroring the source's `try/catch`
that wraps the whole network path). -/
theorem C1_buildRoute_absorbs_network_failure (st : Routing.RoutingState) (now : ℤ)
    (fromPt toPt : Geo.LatLng) (o : Routing.OsrmOutcome) (msg : String)
    (hfail : Routing.buildRouteWithOsrm fromPt toPt o = .error msg) :
    (Routing.cacheHit st now toPt = false →
      (Routing.buildRoute st now fromPt toPt o).route =
        Routing.createStraightLineRoute fromPt toPt) ∧
    (Routing.cacheHit st now toPt = true →
      ∃ e, st.routeCache = some e ∧
        (Routing.buildRoute st now fromPt toPt o).route = e.route) := by
  cases hc : st.routeCache with
  | none =>
    refine ⟨fun _ => ?_, fun h => ?_⟩
    · simp only [Routing.buildRoute, hc, hfail]
    · simp only [Routing.cacheHit, hc] at h
      exact absurd h (by decide)
  | some e =>
    by_cases hcond : (|e.toPoint.lat - toPt.lat| < 0.0001 ∧
        |e.toPoint.lng - toPt.lng| < 0.0001) ∧
        now - e.timestamp < Routing.ROUTE_CACHE_MAX_AGE_MS
    · refine ⟨fun h => ?_, fun _ => ⟨e, rfl, ?_⟩⟩
      · simp only [Routing.cacheHit, hc, decide_eq_false_iff_not] at h
        exact absurd hcond h
      · simp only [Routing.buildRoute, hc]
        rw [if_pos hcond]
    · refine ⟨fun _ => ?_, fun h => ?_⟩
      · simp only [Routing.buildRoute, hc]
        rw [if_neg hcond]
        by_cases ht : |e.toPoint.lat - toPt.lat| < 0.0001 ∧ |e.toPoint.lng - toPt.lng| < 0.0001
        · rw [if_neg (not_not_intro ht)]
          simp only [hfail]
        · rw [if_pos ht]
          simp only [hfail]
      · simp only [Routing.cacheHit, hc, decide_eq_true_eq] at h
        exact absurd h hcond

/-- C1 witness: with an empty cache and a network failure, `buildRoute`
resolves to the straight-line synthetic route. -/
theorem C1_witness :
    (Routing.buildRoute ⟨none, true, 0, 0⟩ 0 ⟨0, 0⟩ ⟨1, 1⟩
        Routing.OsrmOutcome.netFail).route =
      Routing.createStraightLineRoute ⟨0, 0⟩ ⟨1, 1⟩ :=
  (C1_buildRoute_absorbs_network_failure ⟨none, true, 0, 0⟩ 0 ⟨0, 0⟩ ⟨1, 1⟩
    Routing.OsrmOutcome.netFail "Failed to fetch" rfl).1 rfl

/-- C3: with a cached entry whose destination is within 0.0001° of `to` on
both axes and whose age is under 5 minutes, `buildRoute` returns the cached
route and does not attempt the network — for every start point `fromPt`,
however far from the cached entry's start. -/
theorem C3_buildRoute_cache_hit (st : Routing.RoutingState) (e : Routing.RouteCacheEntry)
    (now : ℤ) (fromPt toPt : Geo.LatLng) (o : Routing.OsrmOutcome)
    (hc : st.routeCache = some e)
    (hlat : |e.toPoint.lat - toPt.lat| < 0.0001)
    (hlng : |e.toPoint.lng - toPt.lng| < 0.0001)
    (hage : now - e.timestamp < Routing.ROUTE_CACHE_MAX_AGE_MS) :
    (Routing.buildRoute st now fromPt toPt o).route = e.route ∧
    (Routing.buildRoute st now fromPt toPt o).networkAttempted = false := by
  simp only [Routing.buildRoute, hc]
  rw [if_pos ⟨⟨hlat, hlng⟩, hage⟩]
  exact ⟨rfl, rfl⟩

/-- C3 witness: a cache entry toward `(1, 1)` aged 1000 ms serves a call
from the start point `(50, 50)` — far from the cached start `(0, 0)` —
without a network attempt. -/
theorem C3_witness :
    (Routing.buildRoute ⟨some ⟨⟨[], [], 0⟩, ⟨0, 0⟩, ⟨1, 1⟩, 0⟩, true, 0, 0⟩ 1000
        ⟨50, 50⟩ ⟨1, 1⟩ Routing.OsrmOutcome.netFail).route = ⟨[], [], 0⟩ ∧
    (Routing.buildRoute ⟨some ⟨⟨[], [], 0⟩, ⟨0, 0⟩, ⟨1, 1⟩, 0⟩, true, 0, 0⟩ 1000
        ⟨50, 50⟩ ⟨1, 1⟩ Routing.OsrmOutcome.netFail).networkAttempted = false :=
  C3_buildRoute_cache_hit ⟨some ⟨⟨[], [], 0⟩, ⟨0, 0⟩, ⟨1, 1⟩, 0⟩, true, 0, 0⟩
    ⟨⟨[], [], 0⟩, ⟨0, 0⟩, ⟨1, 1⟩, 0⟩ 1000 ⟨50, 50⟩ ⟨1, 1⟩ Routing.OsrmOutcome.netFail
    rfl (by norm_num) (by norm_num) (by norm_num [Routing.ROUTE_CACHE_MAX_AGE_MS])

/-- C6: whenever the cache check does not return a cached route, the OSRM
request is attempted — independently of `osrmAvailable`,
`lastOsrmFailureTime` and the 30 s cooldown, which are all arbitrary in
`st`. -/
theorem C6_buildRoute_always_attempts (st : Routing.RoutingState) (now : ℤ)
    (fromPt toPt : Geo.LatLng) (o : Routing.OsrmOutcome)
    (h : Routing.cacheHit st now toPt = false) :
    (Routing.buildRoute st now fromPt toPt o).networkAttempted = true := by
  cases hc : st.routeCache with
  | none =>
    cases hor : Routing.buildRouteWithOsrm fromPt toPt o <;>
      simp only [Routing.buildRoute, hc, hor]
  | some e =>
    simp only [Routing.cacheHit, hc, decide_eq_false_iff_not] at h
    simp only [Routing.buildRoute, hc]
    rw [if_neg h]
    by_cases ht : |e.toPoint.lat - toPt.lat| < 0.0001 ∧ |e.toPoint.lng - toPt.lng| < 0.0001
    · rw [if_neg (not_not_intro ht)]
      cases hor : Routing.buildRouteWithOsrm fromPt toPt o <;> simp only [hor]
    · rw [if_pos ht]
      cases hor : Routing.buildRouteWithOsrm fromPt toPt o <;> simp only [hor]

/-- C6 witness: with `osrmAvailable = false` and a failure recorded 1 ms
ago (deep inside the 30 s cooldown), a cache-missing call still attempts
the network. -/
theorem C6_witness :
    (Routing.buildRoute ⟨none, false, 999999, 999999⟩ 1000000 ⟨0, 0⟩ ⟨1, 1⟩
        Routing.OsrmOutcome.netFail).networkAttempted = true :=
  C6_buildRoute_always_attempts ⟨none, false, 999999, 999999⟩ 1000000 ⟨0, 0⟩ ⟨1, 1⟩
    Routing.OsrmOutcome.netFail rfl

/-- On a cache-condition miss, `fetchNearbyRoads` fetches with radius
`max radiusM 400`. -/
theorem fetchNearbyRoads_miss (c : Roads.CacheEntry) (now : ℤ)
    (lat lng radiusM : ℝ) (o : Roads.OverpassOutcome)
    (hcond : ¬ (Roads.distanceBetween c.center ⟨lat, lng⟩ < 150 ∧ radiusM ≤ c.radiusM ∧
      now - c.timestamp < 15000)) :
    (Roads.fetchNearbyRoads (some c) now lat lng radiusM o).fetched = true ∧
    (Roads.fetchNearbyRoads (some c) now lat lng radiusM o).fetchRadius =
      some (max radiusM 400) := by
  simp only [Roads.fetchNearbyRoads, Roads.MIN_DISTANCE_M, Roads.FETCH_INTERVAL_MS]
  rw [if_neg hcond]
  cases hor : Roads.fetchRoadsFromOverpass o <;> simp [hor]

/-- C7: with a cache entry present, `fetchNearbyRoads` returns the cached
segments without a fetch **iff** the planar center distance is below 150 m,
the requested radius does not exceed the cached one, and the age is below
15 s; otherwise it fetches with radius `max radiusM 400` (hence at least
that). -/
theorem C7_roads_cache_iff (c : Roads.CacheEntry) (now : ℤ)
    (lat lng radiusM : ℝ) (o : Roads.OverpassOutcome) :
    (((Roads.fetchNearbyRoads (some c) now lat lng radiusM o).fetched = false ∧
      (Roads.fetchNearbyRoads (some c) now lat lng radiusM o).out = .ok c.roads) ↔
     (Roads.distanceBetween c.center ⟨lat, lng⟩ < 150 ∧ radiusM ≤ c.radiusM ∧
      now - c.timestamp < 15000)) ∧
    (¬ (Roads.distanceBetween c.center ⟨lat, lng⟩ < 150 ∧ radiusM ≤ c.radiusM ∧
      now - c.timestamp < 15000) →
     (Roads.fetchNearbyRoads (some c) now lat lng radiusM o).fetched = true ∧
     (Roads.fetchNearbyRoads (some c) now lat lng radiusM o).fetchRadius =
       some (max radiusM 400)) := by
  by_cases hcond : (Roads.distanceBetween c.center ⟨lat, lng⟩ < 150 ∧ radiusM ≤ c.radiusM ∧
      now - c.timestamp < 15000)
  · refine ⟨⟨fun _ => hcond, fun _ => ?_⟩, fun hn => absurd hcond hn⟩
    simp only [Roads.fetchNearbyRoads, Roads.MIN_DISTANCE_M, Roads.FETCH_INTERVAL_MS]
    rw [if_pos hcond]
    exact ⟨rfl, rfl⟩
  · refine ⟨⟨fun hr => ?_, fun hcc => absurd hcc hcond⟩, fun _ => fetchNearbyRoads_miss c now lat lng radiusM o hcond⟩
    exact absurd ((fetchNearbyRoads_miss c now lat lng radiusM o hcond).1 ▸ hr.1) (by decide)

/-- C7 witness: an unmoved center with equal radius and age 1 s is served
from the cache; the miss clause is instantiated vacuously-free as well. -/
theorem C7_witness :
    (((Roads.fetchNearbyRoads (some ⟨[], ⟨0, 0⟩, 400, 0⟩) 1000 0 0 400
        Roads.OverpassOutcome.netFail).fetched = false ∧
      (Roads.fetchNearbyRoads (some ⟨[], ⟨0, 0⟩, 400, 0⟩) 1000 0 0 400
        Roads.OverpassOutcome.netFail).out = .ok ([] : List Roads.RoadSegment)) ↔
     (Roads.distanceBetween ⟨0, 0⟩ ⟨0, 0⟩ < 150 ∧ (400 : ℝ) ≤ 400 ∧
      (1000 : ℤ) - 0 < 15000)) ∧
    (¬ (Roads.distanceBetween ⟨0, 0⟩ ⟨0, 0⟩ < 150 ∧ (400 : ℝ) ≤ 400 ∧
      (1000 : ℤ) - 0 < 15000) →
     (Roads.fetchNearbyRoads (some ⟨[], ⟨0, 0⟩, 400, 0⟩) 1000 0 0 400
        Roads.OverpassOutcome.netFail).fetched = true ∧
     (Roads.fetchNearbyRoads (some ⟨[], ⟨0, 0⟩, 400, 0⟩) 1000 0 0 400
        Roads.OverpassOutcome.netFail).fetchRadius = some (max (400 : ℝ) 400)) :=
  C7_roads_cache_iff ⟨[], ⟨0, 0⟩, 400, 0⟩ 1000 0 0 400 Roads.OverpassOutcome.netFail

/-- C5: a compass event arriving while a recorded GPS heading is fresher
than 3000 ms is discarded entirely: the state (current fix, pending
heading, debounce timer) is unchanged and no notification is emitted. -/
theorem C5_compass_discarded_when_gps_fresh (st : Heading.HState) (now ts : ℤ)
    (g h : ℝ)
    (hg : st.lastGpsHeading = some g)
    (ht : st.lastGpsHeadingTimestamp = some ts)
    (hfresh : now - ts < 3000) :
    Heading.updateHeading st now h = (st, []) := by
  have hfr : Heading.gpsIsFresh st now = true := by
    unfold Heading.gpsIsFresh
    rw [hg, ht]
    simp [hfresh]
  unfold Heading.updateHeading
  rw [hfr]
  cases st.currentLocation <;> simp

/-- C5 witness: a GPS heading recorded at t = 0 makes a compass event at
t = 1000 a no-op. -/
theorem C5_witness :
    Heading.updateHeading
      ⟨true, true, some ⟨⟨0, 0⟩, 10, 5, 0⟩, none, 0, [0], some 90, some 0, false, none, 50⟩
      1000 42 =
    (⟨true, true, some ⟨⟨0, 0⟩, 10, 5, 0⟩, none, 0, [0], some 90, some 0, false, none, 50⟩,
      []) :=
  C5_compass_discarded_when_gps_fresh
    ⟨true, true, some ⟨⟨0, 0⟩, 10, 5, 0⟩, none, 0, [0], some 90, some 0, false, none, 50⟩
    1000 0 90 42 rfl rfl (by decide)

/-- C9: when the debounce timer fires with a pending compass heading and a
current fix, the emitted `LocationData` is the fix with only its heading
replaced by the pending value (position, accuracy and timestamp unchanged),
that object becomes the new current fix, and the pending value is
cleared. -/
theorem C9_debounce_fire_replaces_only_heading (st : Heading.HState) (p : ℝ)
    (loc : Heading.LocationData)
    (hp : st.pendingHeading = some p) (hl : st.currentLocation = some loc) :
    Heading.fireHeadingDebounce st =
      ({ st with currentLocation := some { loc with heading := p },
                 pendingHeading := none, headingDebounceTimer := false },
       st.listeners.map (fun _ => { loc with heading := p })) := by
  unfold Heading.fireHeadingDebounce
  rw [hp, hl]

/-- C9 witness: a pending heading of 7 fires into a fix at `(1, 2)` with
accuracy 4 and timestamp 5, emitting the fix with heading 7 to both
listeners. -/
theorem C9_witness :
    Heading.fireHeadingDebounce
      ⟨true, true, some ⟨⟨1, 2⟩, 3, 4, 5⟩, none, 0, [0, 1], none, none, true, some 7, 50⟩ =
    (⟨true, true, some ⟨⟨1, 2⟩, 7, 4, 5⟩, none, 0, [0, 1], none, none, false, none, 50⟩,
      [⟨⟨1, 2⟩, 7, 4, 5⟩, ⟨⟨1, 2⟩, 7, 4, 5⟩]) :=
  C9_debounce_fire_replaces_only_heading
    ⟨true, true, some ⟨⟨1, 2⟩, 3, 4, 5⟩, none, 0, [0, 1], none, none, true, some 7, 50⟩
    7 ⟨⟨1, 2⟩, 3, 4, 5⟩ rfl rfl

/-- C10: `stopLocationUpdates` cancels the debounce timer, clears the
listeners, and resets `previousPosition`, `mockHeading` and
`pendingHeading`, while leaving `currentLocation`, `lastGpsHeading` and
`lastGpsHeadingTimestamp` untouched — so `getCurrentLocation` after the
stop still returns whatever fix was cached before it. -/
theorem C10_stop_clears_session_keeps_fix (st : Heading.HState) :
    (Heading.stopLocationUpdates st).headingDebounceTimer = false ∧
    (Heading.stopLocationUpdates st).listeners = [] ∧
    (Heading.stopLocationUpdates st).previousPosition = none ∧
    (Heading.stopLocationUpdates st).mockHeading = 0 ∧
    (Heading.stopLocationUpdates st).pendingHeading = none ∧
    (Heading.stopLocationUpdates st).currentLocation = st.currentLocation ∧
    (Heading.stopLocationUpdates st).lastGpsHeading = st.lastGpsHeading ∧
    (Heading.stopLocationUpdates st).lastGpsHeadingTimestamp =
      st.lastGpsHeadingTimestamp ∧
    Heading.getCurrentLocation (Heading.stopLocationUpdates st) =
      Heading.getCurrentLocation st :=
  ⟨rfl, rfl, rfl, rfl, rfl, rfl, rfl, rfl, rfl⟩

/-- `parseFloat "95.5" = 95.5`. -/
theorem parseFloatChars_955 : Extract.parseFloatChars "95.5".toList = some (191/2) := by
  rw [show Extract.parseFloatChars "95.5".toList =
    some ((Extract.digitsToNat "95".toList : ℚ) +
      (Extract.digitsToNat "5".toList : ℚ) / 10 ^ ("5".toList.length)) from rfl]
  rw [show Extract.digitsToNat "95".toList = 95 from by decide,
      show Extract.digitsToNat "5".toList = 5 from by decide]
  norm_num

/-- `parseFloat "200.5" = 200.5`. -/
theorem parseFloatChars_2005 : Extract.parseFloatChars "200.5".toList = some (401/2) := by
  rw [show Extract.parseFloatChars "200.5".toList =
    some ((Extract.digitsToNat "200".toList : ℚ) +
      (Extract.digitsToNat "5".toList : ℚ) / 10 ^ ("5".toList.length)) from rfl]
  rw [show Extract.digitsToNat "200".toList = 200 from by decide,
      show Extract.digitsToNat "5".toList = 5 from by decide]
  norm_num

/-- `parseFloat "10.5" = 10.5`. -/
theorem parseFloatChars_105 : Extract.parseFloatChars "10.5".toList = some (21/2) := by
  rw [show Extract.parseFloatChars "10.5".toList =
    some ((Extract.digitsToNat "10".toList : ℚ) +
      (Extract.digitsToNat "5".toList : ℚ) / 10 ^ ("5".toList.length)) from rfl]
  rw [show Extract.digitsToNat "10".toList = 10 from by decide,
      show Extract.digitsToNat "5".toList = 5 from by decide]
  norm_num

/-- `parseFloat "20.5" = 20.5`. -/
theorem parseFloatChars_205 : Extract.parseFloatChars "20.5".toList = some (41/2) := by
  rw [show Extract.parseFloatChars "20.5".toList =
    some ((Extract.digitsToNat "20".toList : ℚ) +
      (Extract.digitsToNat "5".toList : ℚ) / 10 ^ ("5".toList.length)) from rfl]
  rw [show Extract.digitsToNat "20".toList = 20 from by decide,
      show Extract.digitsToNat "5".toList = 5 from by decide]
  norm_num

/-- C8 counterexample: the URL `https://www.google.com/maps/@95.5,200.5`
extracts — through the `@lat,lng` pathname branch, which performs no range
check — the coordinate `(95.5, 200.5)`, whose latitude exceeds 90 (and
longitude exceeds 180). -/
theorem C8_counterexample :
    Extract.extractDestinationFromUrl ⟨"www.google.com", "/maps/@95.5,200.5", []⟩
      Extract.noGeocode = some ⟨191/2, 401/2⟩ ∧ ¬ ((191 : ℚ)/2 ≤ 90) := by
  constructor
  · rw [show Extract.extractDestinationFromUrl ⟨"www.google.com", "/maps/@95.5,200.5", []⟩
        Extract.noGeocode =
        some ⟨(Extract.parseFloatChars "95.5".toList).getD 0,
              (Extract.parseFloatChars "200.5".toList).getD 0⟩ from rfl,
      parseFloatChars_955, parseFloatChars_2005]
    rfl
  · norm_num

/-- C8 (amended): the range validation (latitude in `[-90, 90]`, longitude
in `[-180, 180]`) holds for every coordinate produced by the
query-parameter coordinate parse `parseCoordinates`; the `@lat,lng`,
`/place/` and geocoding extraction paths perform no range validation. -/
theorem C8_param_parse_range (s : String) (c : Extract.LatLng)
    (h : Extract.parseCoordinates s = some c) :
    -90 ≤ c.lat ∧ c.lat ≤ 90 ∧ -180 ≤ c.lng ∧ c.lng ≤ 180 := by
  unfold Extract.parseCoordinates at h
  dsimp only at h
  repeat' split at h
  all_goals try (injection h with h'; subst h'; assumption)
  all_goals simp at h

/-- C8 witness: `parseCoordinates "10.5,20.5"` returns `(10.5, 20.5)`,
which is in range. -/
theorem C8_witness :
    Extract.parseCoordinates "10.5,20.5" = some ⟨21/2, 41/2⟩ ∧
    (-90 ≤ ((21 : ℚ)/2) ∧ ((21 : ℚ)/2) ≤ 90 ∧ -180 ≤ ((41 : ℚ)/2) ∧ ((41 : ℚ)/2) ≤ 180) := by
  have hpc : Extract.parseCoordinates "10.5,20.5" = some ⟨21/2, 41/2⟩ := by
    rw [show Extract.parseCoordinates "10.5,20.5" =
      (if -90 ≤ ((Extract.parseFloatChars "10.5".toList).getD 0) ∧
          ((Extract.parseFloatChars "10.5".toList).getD 0) ≤ 90 ∧
          -180 ≤ ((Extract.parseFloatChars "20.5".toList).getD 0) ∧
          ((Extract.parseFloatChars "20.5".toList).getD 0) ≤ 180 then
        some ⟨(Extract.parseFloatChars "10.5".toList).getD 0,
              (Extract.parseFloatChars "20.5".toList).getD 0⟩
      else none) from rfl,
      parseFloatChars_105, parseFloatChars_205]
    rw [if_pos (by norm_num)]
    rfl
  exact ⟨hpc, C8_param_parse_range "10.5,20.5" ⟨21/2, 41/2⟩ hpc⟩
